import Mathlib

set_option maxRecDepth 100000

/-!
# Verification of the itsDumper resource-resolution pipeline

Shallow embedding of `src/main.js` (the itsDumper course-resource mirror).

Modelling conventions:
* Network responses and server-rendered pages are supplied by explicit
  "world" structures that carry exactly the fields the code reads
  (status flag, status text, the attribute/text values of the DOM
  elements the code looks up, `Set-Cookie` headers, response body).
* Side effects (log lines, HTTP GETs with their `Cookie` header, file
  writes) are collected into an explicit effect list; the local file
  system is an association list from path to contents, threaded through
  the functions that touch it.
* JavaScript string operations (`String.prototype.replace` with a
  global literal or character-class pattern, `substring`/`indexOf`,
  `includes`, the specific greedy regexes used by the code) are
  reimplemented character-by-character with JS semantics.
* The `decode` function of the `html-entities` dependency is modelled
  restricted to the five predefined named entities (`&amp;` `&lt;`
  `&gt;` `&quot;` `&apos;`): like the library, it scans left to right
  and never rescans the replacement text.
* `Buffer.from(text, 'utf-8').toString()` is the identity on strings.
* `path.join(a, b)` is modelled as `a ++ "/" ++ b`.
* Where the JavaScript would throw on a failed lookup/regex match, the
  model returns with no further effects; the claims below never depend
  on that path.
-/

namespace ItsDumper

/-- A side effect of the pipeline: a log/warn/error line, a network GET
(with the URL and the `Cookie` header it carries), or a file write. -/
inductive Effect : Type where
  | log (msg : String)
  | fetch (url : String) (cookie : String)
  | write (path : String) (content : String)
  deriving DecidableEq, Repr

/-- The local file system: most recent write first, `lookup` finds the
current contents of a path. -/
abbrev FS := List (String × String)

/-- `path.join(folderPath, fileName)` for the simple relative segments
the program builds. -/
def pathJoin (a b : String) : String := a ++ "/" ++ b

/-! ## JavaScript string primitives -/

/-- One pass of `String.prototype.replace(/pat/g, rep)` for a literal
pattern `p :: ps`: left to right, non-overlapping, the replacement text
is not rescanned.  The fuel argument is instantiated with the length of
the input, which every recursive call keeps sufficient. -/
def replaceAllFuel (p : Char) (ps rep : List Char) : Nat → List Char → List Char
  | _, [] => []
  | 0, l => l
  | Nat.succ n, c :: cs =>
    if (p :: ps).isPrefixOf (c :: cs) then
      rep ++ replaceAllFuel p ps rep n (cs.drop ps.length)
    else
      c :: replaceAllFuel p ps rep n cs

/-- JavaScript `s.replace(/pat/g, rep)` for a literal pattern. -/
def jsReplaceAll (s pat rep : String) : String :=
  match pat.data with
  | [] => s
  | p :: ps => String.mk (replaceAllFuel p ps rep.data s.data.length s.data)

/-- JavaScript `s.includes(sub)` (auxiliary, on character lists). -/
def includesAux (sub : List Char) : List Char → Bool
  | [] => sub.isEmpty
  | c :: cs => sub.isPrefixOf (c :: cs) || includesAux sub cs

/-- JavaScript `s.includes(sub)`. -/
def jsIncludes (s sub : String) : Bool := includesAux sub.data s.data

/-- JavaScript `s.startsWith(pre)` (character-list implementation, so
that concrete instances evaluate inside the kernel). -/
def jsStartsWith (s pre : String) : Bool := pre.data.isPrefixOf s.data

/-- Greedy suffix search used to model a JS regex `pre(\S+)post`: among
the positions `j ≥ 1` of the maximal non-space run `run`, find the
largest one at which `post` occurs (greedy backtracking of `\S+`), and
return the captured group `run.take j`. -/
def lastCapture (run post : List Char) : Option (List Char) :=
  ((List.range (run.length + 1)).reverse.find?
      (fun j => decide (1 ≤ j) && post.isPrefixOf (run.drop j))).map
    (fun j => run.take j)

/-- Try to match `pre(\S+)post` anchored at the start of `l`. -/
def tryCaptureAt (pre post l : List Char) : Option (List Char) :=
  if pre.isPrefixOf l then
    lastCapture ((l.drop pre.length).takeWhile (fun c => !c.isWhitespace)) post
  else none

/-- Leftmost match of `pre(\S+)post`, scanning every start position as
the JS regex engine does. -/
def jsMatchCaptureAux (pre post : List Char) : List Char → Option (List Char)
  | [] => none
  | c :: cs =>
    match tryCaptureAt pre post (c :: cs) with
    | some g => some g
    | none => jsMatchCaptureAux pre post cs

/-- JavaScript `s.match(/pre(\S+)post/)[1]`, as an `Option`. -/
def jsMatchCapture (pre post s : String) : Option String :=
  (jsMatchCaptureAux pre.data post.data s.data).map String.mk

/-- Leftmost match of `pre(\d+)` (auxiliary, on character lists): at the
first occurrence of `pre` followed by at least one digit, capture the
maximal digit run. -/
def jsMatchDigitsAux (pre : List Char) : List Char → Option (List Char)
  | [] => none
  | c :: cs =>
    if pre.isPrefixOf (c :: cs) then
      let run := ((c :: cs).drop pre.length).takeWhile Char.isDigit
      if run.isEmpty then jsMatchDigitsAux pre cs else some run
    else jsMatchDigitsAux pre cs

/-- JavaScript `s.match(/pre(\d+)/)[1]`, as an `Option`. -/
def jsMatchDigits (pre s : String) : Option String :=
  (jsMatchDigitsAux pre.data s.data).map String.mk

/-! ## Name sanitizer (`decodeString`, main.js lines 357-360) -/

/-- Model of `decode` from the `html-entities` dependency, restricted to
the five predefined named entities.  Scans left to right; the decoded
character is emitted and scanning continues after the entity, without
rescanning the output. -/
def decodeEntitiesAux : List Char → List Char
  | '&' :: 'a' :: 'm' :: 'p' :: ';' :: rest => '&' :: decodeEntitiesAux rest
  | '&' :: 'l' :: 't' :: ';' :: rest => '<' :: decodeEntitiesAux rest
  | '&' :: 'g' :: 't' :: ';' :: rest => '>' :: decodeEntitiesAux rest
  | '&' :: 'q' :: 'u' :: 'o' :: 't' :: ';' :: rest => '"' :: decodeEntitiesAux rest
  | '&' :: 'a' :: 'p' :: 'o' :: 's' :: ';' :: rest => '\x27' :: decodeEntitiesAux rest
  | c :: rest => c :: decodeEntitiesAux rest
  | [] => []

/-- `decode` of the `html-entities` dependency (see
`decodeEntitiesAux`). -/
def htmlDecode (s : String) : String := String.mk (decodeEntitiesAux s.data)

/-- Membership in the character class `[\/\\|":?*<>{}]` of main.js line
359. -/
def forbiddenChar (c : Char) : Bool :=
  c == '/' || c == '\\' || c == '|' || c == '"' || c == ':' || c == '?' ||
    c == '*' || c == '<' || c == '>' || c == '\x7b' || c == '\x7d'

/-- The per-character action of `.replace(/[\/\\|":?*<>{}]/g, '_')`. -/
def sanitizeChar (c : Char) : Char := if forbiddenChar c then '_' else c

/-- `decodeString` (main.js lines 357-360): decode the text (the
UTF-8 `Buffer` round trip is the identity), then replace every
character of the forbidden class by `'_'`. -/
def decodeString (text : String) : String :=
  String.mk ((htmlDecode text).data.map sanitizeChar)

/-! ## Cookie handling (`convertSetCookieToCookieString`, lines 347-351) -/

/-- `cookie.substring(0, cookie.indexOf(";"))`: the part before the
first `';'`, and `""` when there is no `';'` (JS `indexOf` returns `-1`
and `substring(0, -1)` clamps to the empty string). -/
def cookiePair (cookie : String) : String :=
  if cookie.data.contains ';' then
    String.mk (cookie.data.takeWhile (fun c => !(c == ';')))
  else ""

/-- `[...new Set(cookies)]`: deduplicate by full string equality,
keeping the first occurrence of each value, in insertion order. -/
def jsSetDedupAux (seen : List String) : List String → List String
  | [] => []
  | c :: cs =>
    if c ∈ seen then jsSetDedupAux seen cs
    else c :: jsSetDedupAux (c :: seen) cs

/-- `[...new Set(cookies)]` (see `jsSetDedupAux`). -/
def jsSetDedup (l : List String) : List String := jsSetDedupAux [] l

/-- `convertSetCookieToCookieString` (main.js lines 347-351). -/
def convertSetCookieToCookieString (cookieArray : List String) : String :=
  String.intercalate "; " (jsSetDedup (cookieArray.map cookiePair))

/-- The name part of a `name=value` cookie pair (used below to state
properties about the resulting header). -/
def cookieName (pair : String) : String :=
  String.mk (pair.data.takeWhile (fun c => !(c == '=')))

/-! ## Office preview URL extraction (`getOfficeFileDownloadUrl`, lines 281-296) -/

/-- `getOfficeFileDownloadUrl` (main.js lines 281-296): extract the
form-action URL, the access token and its TTL (unused) from the raw
preview page text; take the `WOPISrc=(\S+)&ui=` capture of the
form-action URL, un-escape `\x253a` to `:` and `\x252f` to `/`, and
append `/contents?access_token=<token>`.  `none` models the JS `match`
throwing when a pattern is absent. -/
def getOfficeFileDownloadUrl (webContent : String) : Option String :=
  match jsMatchCapture "form.action = '" "';" webContent with
  | none => none
  | some officeUrl =>
    match jsMatchCapture "accessTokenInput.value = '" "';" webContent with
    | none => none
    | some accessToken =>
      match jsMatchCapture "accessTokenTtlInput.value = '" "';" webContent with
      | none => none
      | some _accessTokenTtl =>
        match jsMatchCapture "WOPISrc=" "&ui=" officeUrl with
        | none => none
        | some rawContentUrl =>
          let fileContentUrl :=
            jsReplaceAll (jsReplaceAll rawContentUrl "\\x253a" ":") "\\x252f" "/"
          some (fileContentUrl ++ "/contents?access_token=" ++ accessToken)

/-! ## File Materializer (`downloadFile`, lines 313-345) -/

/-- `skipAlreadyDownloadedFiles` (main.js line 12). -/
def skipAlreadyDownloadedFiles : Bool := true

/-- The response the world supplies for the final payload GET. -/
structure DownloadResp : Type where
  ok : Bool
  statusText : String
  body : String
  deriving DecidableEq, Repr

/-- `downloadFile` (main.js lines 313-345): skip (with a log line) when
the target path exists and the skip policy is on; otherwise GET the
payload, log an error on non-success, and stream the body to the target
path (directory creation is not modelled). -/
def downloadFile (resp : DownloadResp) (downloadUrl cookieString folderPath filename : String)
    (fs : FS) : List Effect × FS :=
  let downloadLocation := pathJoin folderPath filename
  if ((fs.lookup downloadLocation).isSome && skipAlreadyDownloadedFiles : Bool) then
    ([Effect.log ("Skipping file: " ++ downloadLocation)], fs)
  else
    let fetchEff := Effect.fetch downloadUrl cookieString
    if !resp.ok then
      ([fetchEff, Effect.log ("Failed to download file: " ++ resp.statusText)], fs)
    else
      ([fetchEff, Effect.write downloadLocation resp.body,
        Effect.log ("Downloaded file to " ++ downloadLocation)],
       (downloadLocation, resp.body) :: fs)

/-! ## Resource Resolver (`downloadResourceObject`, lines 190-279) -/

/-- Everything `downloadResourceObject` reads from the network during
one file resolution.  `iframeOk` and `resourceOk` carry the HTTP status
of the cross-domain and platform hops; the code never reads them (it
checks no status there), the model keeps them so that claims about
those statuses can be stated. -/
structure FileWorld : Type where
  /-- status of the view-page GET -/
  viewOk : Bool
  viewStatusText : String
  /-- text of the `ctl00_PageHeader_TT` title element of the view page -/
  fileNameTitle : String
  /-- `src` attribute of `ctl00_ContentPlaceHolder_ExtensionIframe` -/
  iframeSrc : String
  /-- status of the cross-domain hop (ignored by the code) -/
  iframeOk : Bool
  /-- `Location` header of the cross-domain hop -/
  locationHeader : String
  /-- `Set-Cookie` headers of the cross-domain hop -/
  iframeSetCookie : List String
  /-- status of the platform hop (ignored by the code) -/
  resourceOk : Bool
  /-- `Set-Cookie` headers of the platform hop -/
  resourceSetCookie : List String
  /-- `href` and `Download` attributes of
  `ctl00_ctl00_MainFormContent_DownloadLinkForViewType`, when present -/
  downloadAnchor : Option (String × String)
  /-- `src` attribute of
  `ctl00_ctl00_MainFormContent_PreviewIframe_FilePreviewIframe`, when
  present -/
  filePreviewSrc : Option String
  /-- status of the preview-page GET -/
  previewOk : Bool
  previewStatusText : String
  /-- raw text of the preview page -/
  previewContent : String
  /-- response of the final payload GET -/
  download : DownloadResp
  deriving Repr

/-- The portal cookie header `ASP.NET_SessionId=<sessionId>;`. -/
def portalCookie (sessionId : String) : String :=
  "ASP.NET_SessionId=" ++ sessionId ++ ";"

/-- The view-page URL of main.js line 191. -/
def viewUrl (school elementId : String) : String :=
  "https://" ++ school ++
    ".itslearning.com/LearningToolElement/ViewLearningToolElement.aspx?LearningToolElementId="
    ++ elementId

/-- `resourceCookieString` (main.js lines 238-239): the platform hop's
`Set-Cookie` values filtered to the session-id cookie, converted to a
`Cookie` header. -/
def resourceCookieStringOf (w : FileWorld) : String :=
  convertSetCookieToCookieString
    (w.resourceSetCookie.filter (fun c => jsIncludes c "ASP.NET_SessionId"))

/-- `downloadResourceObject` (main.js lines 190-279): the four-hop
resolution of one file, producing the effect list and the updated file
system. -/
def downloadResourceObject (school sessionId elementId folderPath : String)
    (w : FileWorld) (fs : FS) : List Effect × FS :=
  let url := viewUrl school elementId
  let viewFetch := Effect.fetch url (portalCookie sessionId)
  if !w.viewOk then
    ([viewFetch,
      Effect.log ("Failed to fetch web page for resource object: " ++ w.viewStatusText ++
        " URL: " ++ url)], fs)
  else
    let fileName := w.fileNameTitle
    let iframeUrl := jsReplaceAll w.iframeSrc "&amp;" "&"
    let iframeFetch := Effect.fetch iframeUrl ""
    let learningObjectInstanceUrl := w.locationHeader
    let platformCookieString := convertSetCookieToCookieString w.iframeSetCookie
    let resourceFetch := Effect.fetch learningObjectInstanceUrl platformCookieString
    let resourceCookieString := resourceCookieStringOf w
    match w.downloadAnchor with
    | some (href, downloadFilename) =>
      let downloadUrl := "https://resource.itslearning.com" ++ jsReplaceAll href "&amp;" "&"
      let r := downloadFile w.download downloadUrl resourceCookieString
        folderPath downloadFilename fs
      ([viewFetch, iframeFetch, resourceFetch] ++ r.1, r.2)
    | none =>
      match w.filePreviewSrc with
      | some previewSrc =>
        let previewUrl := "https://resource.itslearning.com/" ++ previewSrc
        let previewFetch := Effect.fetch previewUrl resourceCookieString
        if !w.previewOk then
          ([viewFetch, iframeFetch, resourceFetch, previewFetch,
            Effect.log ("Failed to download file preview web page (office online): " ++
              w.previewStatusText)], fs)
        else
          match getOfficeFileDownloadUrl w.previewContent with
          | some officeDownloadUrl =>
            let r := downloadFile w.download officeDownloadUrl "" folderPath fileName fs
            ([viewFetch, iframeFetch, resourceFetch, previewFetch] ++ r.1, r.2)
          | none => ([viewFetch, iframeFetch, resourceFetch, previewFetch], fs)
      | none =>
        ([viewFetch, iframeFetch, resourceFetch,
          Effect.log ("Resource type unsupported. No direct download link available: " ++
            fileName)], fs)

/-! ## Folder Traversal Engine (`downloadResourceFolder`, lines 129-180) -/

/-- Everything the traversal reads for one folder: the status of the
folder-page GET, the text of the `ctl00_PageHeader_TT` title element,
and the `GridTitle` entries.  Each entry carries its `href`, its display
text, and the sub-worlds used when the entry is dispatched as a nested
folder or as a file. -/
inductive FolderWorld : Type where
  | mk (ok : Bool) (title : String)
      (entries : List (String × String × FolderWorld × FileWorld))

/-- Status of the folder-page GET. -/
def FolderWorld.ok : FolderWorld → Bool
  | .mk ok _ _ => ok

/-- Title-element text of the folder page. -/
def FolderWorld.title : FolderWorld → String
  | .mk _ title _ => title

/-- The `GridTitle` entries of the folder page. -/
def FolderWorld.entries : FolderWorld → List (String × String × FolderWorld × FileWorld)
  | .mk _ _ entries => entries

/-- `numberOfSameName > 1 ? true : false` (main.js lines 166-167). -/
def shouldAppendId (folderEntryNames : List String) (text : String) : Bool :=
  decide (1 < (folderEntryNames.filter (fun n => n == text)).length)

/-- Resolution of a possibly-relative folder URL against the portal
domain (main.js lines 130-132). -/
def folderAbsUrl (school folderUrl : String) : String :=
  if jsStartsWith folderUrl "/" then
    "https://" ++ school ++ ".itslearning.com" ++ folderUrl
  else folderUrl

mutual

/-- `downloadResourceFolder` (main.js lines 129-180): fetch and parse
one folder page, abort (log only) on non-success, compute the sanitized
folder name (with ` [<FolderID>]` appended when `appendId` is set), and
process every entry in document order. -/
def downloadResourceFolder (school folderUrl sessionId parentFolderPath : String)
    (appendId : Bool) (w : FolderWorld) (fs : FS) : List Effect × FS :=
  match w with
  | .mk ok title entries =>
    let folderUrl := folderAbsUrl school folderUrl
    let fetchEff := Effect.fetch folderUrl (portalCookie sessionId)
    if !ok then
      ([fetchEff, Effect.log ("Failed to fetch web content for folder at " ++ folderUrl)], fs)
    else
      let folderName := decodeString title
      let folderName := if appendId then
        folderName ++ " [" ++ (jsMatchDigits "FolderID=" folderUrl).getD "" ++ "]"
      else folderName
      let folderPath := parentFolderPath ++ "/" ++ folderName
      let folderEntryNames := entries.map (fun e => e.2.1)
      let r := processEntries school sessionId folderPath folderEntryNames entries fs
      (fetchEff :: r.1, r.2)

/-- The entry loop of `downloadResourceFolder` (main.js lines 163-179):
each entry is dispatched by URL prefix — `/Folder` recurses with the
duplicate-name flag, `/LearningToolElement` resolves the file (the flag
is not passed), anything else is logged and skipped. -/
def processEntries (school sessionId folderPath : String) (folderEntryNames : List String)
    (entries : List (String × String × FolderWorld × FileWorld)) (fs : FS) :
    List Effect × FS :=
  match entries with
  | [] => ([], fs)
  | (url, text, subWorld, fileWorld) :: rest =>
    let flag := shouldAppendId folderEntryNames text
    let r1 :=
      if jsStartsWith url "/Folder" then
        downloadResourceFolder school url sessionId folderPath flag subWorld fs
      else if jsStartsWith url "/LearningToolElement" then
        match jsMatchDigits "LearningToolElementId=" url with
        | some elementId => downloadResourceObject school sessionId elementId folderPath
            fileWorld fs
        | none => ([], fs)
      else
        ([Effect.log ("Unknown folder entry type. Url: " ++ url)], fs)
    let r2 := processEntries school sessionId folderPath folderEntryNames rest r1.2
    (r1.1 ++ r2.1, r2.2)

end

/-! ## Course loop (`downloadResourcesOfCourses`, lines 93-119) -/

/-- `downloadLocation` (main.js line 11). -/
def downloadLocation : String := "./data"

/-- Everything the course loop reads for one course: its title and id,
the status of the ContentArea GET, the `href` of the `link-resources`
anchor, and the world of the root resource folder. -/
structure CourseWorld : Type where
  title : String
  courseId : String
  contentOk : Bool
  resourceFolderUrl : String
  root : FolderWorld

/-- The ContentArea URL of main.js line 95. -/
def contentAreaUrl (school courseId : String) : String :=
  "https://" ++ school ++ ".itslearning.com/ContentArea/ContentArea.aspx?LocationID=" ++
    courseId ++ "&LocationType=1"

/-- `downloadResourcesOfCourses` (main.js lines 93-119): for each
course, fetch its ContentArea page; on non-success the function
`return`s (which drops the remaining courses); otherwise descend into
the course's root resource folder. -/
def downloadResourcesOfCourses (school sessionId : String) (courses : List CourseWorld)
    (fs : FS) : List Effect × FS :=
  match courses with
  | [] => ([], fs)
  | course :: rest =>
    let contentUrl := contentAreaUrl school course.courseId
    let fetchEff := Effect.fetch contentUrl (portalCookie sessionId)
    if !course.contentOk then
      ([fetchEff, Effect.log ("Failed to fetch web content for course " ++ course.title)], fs)
    else
      let parentFolder := pathJoin downloadLocation (decodeString course.title)
      let r1 := downloadResourceFolder school course.resourceFolderUrl sessionId
        parentFolder false course.root fs
      let r2 := downloadResourcesOfCourses school sessionId rest r1.2
      (fetchEff :: (r1.1 ++ r2.1), r2.2)

/-! ## Helper lemmas -/

/-- The character-replacement pass never produces a forbidden
character. -/
lemma forbiddenChar_sanitizeChar (c : Char) : forbiddenChar (sanitizeChar c) = false := by
  cases hc : forbiddenChar c
  · simp [sanitizeChar, hc]
  · have h1 : sanitizeChar c = '_' := by simp [sanitizeChar, hc]
    rw [h1]
    decide

/-- Membership in the JS-`Set` deduplication: an element survives iff it
occurs in the input and is not already recorded as seen. -/
lemma mem_jsSetDedupAux (x : String) :
    ∀ (l seen : List String), x ∈ jsSetDedupAux seen l ↔ x ∈ l ∧ x ∉ seen := by
  intro l
  induction l with
  | nil => intro seen; simp [jsSetDedupAux]
  | cons c cs ih =>
    intro seen
    unfold jsSetDedupAux
    by_cases hc : c ∈ seen
    · rw [if_pos hc, ih seen]
      constructor
      · rintro ⟨hx, hns⟩
        exact ⟨List.mem_cons_of_mem _ hx, hns⟩
      · rintro ⟨hx, hns⟩
        rcases List.mem_cons.mp hx with rfl | hx
        · exact (hns hc).elim
        · exact ⟨hx, hns⟩
    · rw [if_neg hc]
      simp only [List.mem_cons, ih (c :: seen)]
      constructor
      · rintro (rfl | ⟨hx, hns⟩)
        · exact ⟨Or.inl rfl, hc⟩
        · exact ⟨Or.inr hx, fun hs => hns (Or.inr hs)⟩
      · rintro ⟨rfl | hx, hns⟩
        · exact Or.inl rfl
        · rcases eq_or_ne x c with rfl | hxc
          · exact Or.inl rfl
          · refine Or.inr ⟨hx, fun hs => ?_⟩
            rcases hs with rfl | hs
            · exact hxc rfl
            · exact hns hs

/-- The JS-`Set` deduplication produces a list without duplicates. -/
lemma nodup_jsSetDedupAux : ∀ (l seen : List String), (jsSetDedupAux seen l).Nodup := by
  intro l
  induction l with
  | nil => intro seen; simp [jsSetDedupAux]
  | cons c cs ih =>
    intro seen
    unfold jsSetDedupAux
    by_cases hc : c ∈ seen
    · rw [if_pos hc]; exact ih seen
    · rw [if_neg hc]
      refine List.nodup_cons.mpr ⟨fun hmem => ?_, ih (c :: seen)⟩
      rcases (mem_jsSetDedupAux c cs (c :: seen)).mp hmem with ⟨-, hns⟩
      exact hns (List.mem_cons_self c _)

/-! ## Claims -/

/-- **C9** — For every input string, the sanitizer first decodes HTML
character entities and multi-byte text, then replaces every character of
the set `{ / \ | " : ? * < > { } }` with `'_'`, so the output contains
no character from that set; in particular `sanitize("A/B\C:D")` returns
`"A_B_C_D"`. -/
theorem c9_sanitizer_strips_forbidden :
    (∀ s : String, ((decodeString s).data.all (fun c => !forbiddenChar c)) = true) ∧
    decodeString "A/B\\C:D" = "A_B_C_D" := by
  constructor
  · intro s
    show (((htmlDecode s).data.map sanitizeChar).all (fun c => !forbiddenChar c)) = true
    rw [List.all_eq_true]
    intro c hc
    rcases List.mem_map.mp hc with ⟨a, -, rfl⟩
    rw [Bool.not_eq_true', forbiddenChar_sanitizeChar]
  · decide

/-- **C5 counterexample** — The name sanitizer is *not* idempotent on
every input: on the doubly-encoded entity `"&amp;quot;"` the first
application yields `"&quot;"`, and the second application decodes that
to `"` and replaces it with `'_'`. -/
theorem c5_counterexample :
    decodeString (decodeString "&amp;quot;") ≠ decodeString "&amp;quot;" := by
  decide

/-- **C5 (amended)** — The name sanitizer is idempotent on every input
string whose sanitized form is left unchanged by HTML-entity decoding
(every input without doubly-encoded entities): if
`decode (sanitize x) = sanitize x` then
`sanitize (sanitize x) = sanitize x`. -/
theorem c5_sanitizer_idempotent (x : String)
    (h : htmlDecode (decodeString x) = decodeString x) :
    decodeString (decodeString x) = decodeString x := by
  have h2 : (htmlDecode (decodeString x)).data = (decodeString x).data := by rw [h]
  show String.mk ((htmlDecode (decodeString x)).data.map sanitizeChar) = decodeString x
  rw [h2]
  show String.mk (((htmlDecode x).data.map sanitizeChar).map sanitizeChar) = decodeString x
  rw [List.map_map]
  have hcomp : sanitizeChar ∘ sanitizeChar = sanitizeChar := by
    funext c
    show sanitizeChar (sanitizeChar c) = sanitizeChar c
    cases hc : forbiddenChar c
    · have h1 : sanitizeChar c = c := by simp [sanitizeChar, hc]
      rw [h1]
      exact h1
    · have h1 : sanitizeChar c = '_' := by simp [sanitizeChar, hc]
      rw [h1]
      decide
  rw [hcomp]
  rfl

/-- Witness for the amended C5 at the concrete input `"A/B"`. -/
theorem c5_sanitizer_idempotent_witness :
    htmlDecode (decodeString "A/B") = decodeString "A/B" ∧
    decodeString (decodeString "A/B") = decodeString "A/B" :=
  ⟨by decide, c5_sanitizer_idempotent "A/B" (by decide)⟩

/-- **C6 counterexample** — Cookie deduplication is *not* per cookie
name with the last value winning: for two `Set-Cookie` values sharing
the name `a` with different values, both `name=value` pairs appear in
the resulting header. -/
theorem c6_counterexample :
    convertSetCookieToCookieString ["a=1; path=/", "a=2; path=/"] = "a=1; a=2" ∧
    ((jsSetDedup ((["a=1; path=/", "a=2; path=/"]).map cookiePair)).filter
      (fun p => cookieName p == "a")).length = 2 := by
  constructor
  · decide
  · decide

/-- **C6 (amended)** — Cookies obtained during a file resolution are
merged into the cookie header deduplicated by their full `name=value`
string (exact duplicates collapse, first occurrence kept, in order),
not per cookie name; the `Cookie` header is built by joining the
resulting pairs with the separator `"; "`; two entries sharing a cookie
name with different values therefore both appear. -/
theorem c6_cookie_header :
    ∀ cookieArray : List String,
      convertSetCookieToCookieString cookieArray =
        String.intercalate "; " (jsSetDedup (cookieArray.map cookiePair)) ∧
      (jsSetDedup (cookieArray.map cookiePair)).Nodup ∧
      ∀ p, (p ∈ jsSetDedup (cookieArray.map cookiePair) ↔ p ∈ cookieArray.map cookiePair) := by
  intro arr
  refine ⟨rfl, nodup_jsSetDedupAux _ _, fun p => ?_⟩
  rw [jsSetDedup, mem_jsSetDedupAux]
  simp

/-- **C8** — For every materialize call where a file already exists at
`folderPath/fileName` (the skip-existing policy is the compiled-in
constant `true`), the Materializer emits exactly one skip log line,
performs no network GET for the payload, and leaves the file system —
in particular the existing file's contents — unchanged. -/
theorem c8_skip_existing (resp : DownloadResp)
    (downloadUrl cookieString folderPath filename : String) (fs : FS)
    (h : (fs.lookup (pathJoin folderPath filename)).isSome = true) :
    downloadFile resp downloadUrl cookieString folderPath filename fs =
      ([Effect.log ("Skipping file: " ++ pathJoin folderPath filename)], fs) := by
  unfold downloadFile
  simp [h, skipAlreadyDownloadedFiles]

/-- Witness for C8: a concrete re-run against an already-downloaded
file. -/
theorem c8_skip_existing_witness :
    downloadFile { ok := true, statusText := "OK", body := "NEW" } "u" "ck" "base" "f.pdf"
      [("base/f.pdf", "OLD")] =
      ([Effect.log ("Skipping file: " ++ pathJoin "base" "f.pdf")], [("base/f.pdf", "OLD")]) :=
  c8_skip_existing _ _ _ _ _ _ (by decide)

/-- **C7** — For every platform-hop page containing neither a
direct-download anchor nor a preview-frame element, the resolver logs an
"unsupported" message and terminates that file's resolution: the effect
list ends with the log line, the Materializer (`downloadFile`) is never
invoked (no payload GET, no write), the file system is unchanged, and
the function returns normally (no run-level failure). -/
theorem c7_unsupported (school sessionId elementId folderPath : String)
    (w : FileWorld) (fs : FS)
    (hok : w.viewOk = true) (ha : w.downloadAnchor = none) (hp : w.filePreviewSrc = none) :
    downloadResourceObject school sessionId elementId folderPath w fs =
      ([Effect.fetch (viewUrl school elementId) (portalCookie sessionId),
        Effect.fetch (jsReplaceAll w.iframeSrc "&amp;" "&") "",
        Effect.fetch w.locationHeader (convertSetCookieToCookieString w.iframeSetCookie),
        Effect.log ("Resource type unsupported. No direct download link available: " ++
          w.fileNameTitle)], fs) := by
  unfold downloadResourceObject
  rw [hok, ha, hp]
  rfl

/-- Page-world used by the C7 witness only. -/
def c7World : FileWorld :=
  { viewOk := true, viewStatusText := "OK", fileNameTitle := "Quiz 1"
    iframeSrc := "https://platform.itslearning.com/p?a=1", iframeOk := true
    locationHeader := "https://platform.itslearning.com/loi"
    iframeSetCookie := ["p=1; path=/"]
    resourceOk := true
    resourceSetCookie := ["ASP.NET_SessionId=r1; path=/"]
    downloadAnchor := none
    filePreviewSrc := none, previewOk := true, previewStatusText := "OK"
    previewContent := "", download := { ok := true, statusText := "OK", body := "B" } }

/-- Witness for C7: a concrete resolution with neither marker
terminates with the unsupported log and no materialization. -/
theorem c7_unsupported_witness :
    c7World.downloadAnchor = none ∧ c7World.filePreviewSrc = none ∧
    downloadResourceObject "sch" "sid" "42" "base" c7World [] =
      ([Effect.fetch (viewUrl "sch" "42") (portalCookie "sid"),
        Effect.fetch "https://platform.itslearning.com/p?a=1" "",
        Effect.fetch "https://platform.itslearning.com/loi" "p=1",
        Effect.log "Resource type unsupported. No direct download link available: Quiz 1"],
       []) :=
  ⟨rfl, rfl, c7_unsupported "sch" "sid" "42" "base" c7World [] rfl rfl rfl⟩

/-- **C2** — For every platform-hop page containing a direct-download
anchor, the resolver invokes the Materializer (`downloadFile`) with the
anchor's `Download` attribute value taken literally as the target file
name, with the resource-domain cookie header
(`resourceCookieStringOf w`), and with the URL obtained by prefixing the
fixed resource-domain base to the anchor's `href` in which each escaped
ampersand `&amp;` is decoded to `&` exactly once (the replacement scans
left to right and never rescans its own output — witnessed by the final
conjunct, where `&amp;amp;` decodes to `&amp;`, not `&`). -/
theorem c2_direct_download
    (school sessionId elementId folderPath href downloadFilename : String)
    (w : FileWorld) (fs : FS)
    (hok : w.viewOk = true) (ha : w.downloadAnchor = some (href, downloadFilename)) :
    downloadResourceObject school sessionId elementId folderPath w fs =
      ([Effect.fetch (viewUrl school elementId) (portalCookie sessionId),
        Effect.fetch (jsReplaceAll w.iframeSrc "&amp;" "&") "",
        Effect.fetch w.locationHeader (convertSetCookieToCookieString w.iframeSetCookie)] ++
          (downloadFile w.download
            ("https://resource.itslearning.com" ++ jsReplaceAll href "&amp;" "&")
            (resourceCookieStringOf w) folderPath downloadFilename fs).1,
       (downloadFile w.download
            ("https://resource.itslearning.com" ++ jsReplaceAll href "&amp;" "&")
            (resourceCookieStringOf w) folderPath downloadFilename fs).2) ∧
    jsReplaceAll "/x&amp;amp;y" "&amp;" "&" = "/x&amp;y" := by
  refine ⟨?_, by decide⟩
  unfold downloadResourceObject
  rw [hok, ha]
  simp

/-- Page-world used by the C2 witness only. -/
def c2World : FileWorld :=
  { viewOk := true, viewStatusText := "OK", fileNameTitle := "My File"
    iframeSrc := "https://platform.itslearning.com/p?a=1&amp;b=2", iframeOk := true
    locationHeader := "https://platform.itslearning.com/loi"
    iframeSetCookie := ["p=1; path=/"]
    resourceOk := true
    resourceSetCookie := ["ASP.NET_SessionId=r1; path=/", "other=2; path=/"]
    downloadAnchor := some ("/x&amp;y", "report.pdf")
    filePreviewSrc := none, previewOk := true, previewStatusText := "OK"
    previewContent := "", download := { ok := true, statusText := "OK", body := "BYTES" } }

/-- Witness for C2: the spec's example — `href="/x&amp;y"` with
`Download="report.pdf"` materializes the file name `report.pdf` from a
URL ending in `/x&y`, carrying the resource-domain session cookie. -/
theorem c2_direct_download_witness :
    c2World.viewOk = true ∧
    c2World.downloadAnchor = some ("/x&amp;y", "report.pdf") ∧
    downloadResourceObject "sch" "sid" "42" "base" c2World [] =
      ([Effect.fetch (viewUrl "sch" "42") (portalCookie "sid"),
        Effect.fetch "https://platform.itslearning.com/p?a=1&b=2" "",
        Effect.fetch "https://platform.itslearning.com/loi" "p=1",
        Effect.fetch "https://resource.itslearning.com/x&y" "ASP.NET_SessionId=r1",
        Effect.write "base/report.pdf" "BYTES",
        Effect.log "Downloaded file to base/report.pdf"],
       [("base/report.pdf", "BYTES")]) :=
  ⟨rfl, rfl,
    (c2_direct_download "sch" "sid" "42" "base" "/x&amp;y" "report.pdf" c2World [] rfl rfl).1⟩

/-- **C1** — For every platform-hop page containing a preview-frame
marker and no direct-download anchor (with the preview fetch successful
and the three script-embedded patterns present), the resolver constructs
the final download URL as `<contentUrl>/contents?access_token=<token>`,
where `contentUrl` is the `WOPISrc=(\S+)&ui=` capture of the form-action
URL with every occurrence of the literal sequence `\x253a` replaced by
`:` and every occurrence of `\x252f` replaced by `/`, and invokes the
Materializer (`downloadFile`) with an empty cookie header and the file
name taken from the view-hop page title (`w.fileNameTitle`). -/
theorem c1_office_preview_download (school sessionId elementId folderPath : String)
    (previewSrc officeUrl accessToken accessTokenTtl rawContentUrl : String)
    (w : FileWorld) (fs : FS)
    (hok : w.viewOk = true) (ha : w.downloadAnchor = none)
    (hp : w.filePreviewSrc = some previewSrc) (hpok : w.previewOk = true)
    (h1 : jsMatchCapture "form.action = '" "';" w.previewContent = some officeUrl)
    (h2 : jsMatchCapture "accessTokenInput.value = '" "';" w.previewContent = some accessToken)
    (h3 : jsMatchCapture "accessTokenTtlInput.value = '" "';" w.previewContent =
      some accessTokenTtl)
    (h4 : jsMatchCapture "WOPISrc=" "&ui=" officeUrl = some rawContentUrl) :
    downloadResourceObject school sessionId elementId folderPath w fs =
      ([Effect.fetch (viewUrl school elementId) (portalCookie sessionId),
        Effect.fetch (jsReplaceAll w.iframeSrc "&amp;" "&") "",
        Effect.fetch w.locationHeader (convertSetCookieToCookieString w.iframeSetCookie),
        Effect.fetch ("https://resource.itslearning.com/" ++ previewSrc)
          (resourceCookieStringOf w)] ++
          (downloadFile w.download
            (jsReplaceAll (jsReplaceAll rawContentUrl "\\x253a" ":") "\\x252f" "/" ++
              "/contents?access_token=" ++ accessToken)
            "" folderPath w.fileNameTitle fs).1,
       (downloadFile w.download
            (jsReplaceAll (jsReplaceAll rawContentUrl "\\x253a" ":") "\\x252f" "/" ++
              "/contents?access_token=" ++ accessToken)
            "" folderPath w.fileNameTitle fs).2) := by
  unfold downloadResourceObject getOfficeFileDownloadUrl
  rw [hok, ha, hp, hpok, h1, h2, h3]
  simp only []
  rw [h4]
  simp

/-- Raw preview-page text used by the C1 witness only. -/
def c1Preview : String :=
  "var f; form.action = 'https://office.example/wv/frame.aspx?WOPISrc=https\\x253a\\x252f\\x252fresource.itslearning.com\\x252fwopi\\x252ffiles\\x252f123&ui=en-US'; accessTokenInput.value = 'TOK123'; accessTokenTtlInput.value = '99999';"

/-- Page-world used by the C1 witness only. -/
def c1World : FileWorld :=
  { viewOk := true, viewStatusText := "OK", fileNameTitle := "Essay.docx"
    iframeSrc := "https://platform.itslearning.com/p?a=1&amp;b=2", iframeOk := true
    locationHeader := "https://platform.itslearning.com/loi"
    iframeSetCookie := ["p=1; path=/"]
    resourceOk := true
    resourceSetCookie := ["ASP.NET_SessionId=r1; path=/"]
    downloadAnchor := none
    filePreviewSrc := some "PreviewHandler.ashx?f=1", previewOk := true
    previewStatusText := "OK"
    previewContent := c1Preview
    download := { ok := true, statusText := "OK", body := "DOCBYTES" } }

/-- Witness for C1: a concrete preview-frame resolution; the escaped
`WOPISrc` value is un-escaped to the content URL, `\/contents?access_token=`
is appended, the cookie header is empty and the file name is the
view-page title. -/
theorem c1_office_preview_download_witness :
    c1World.downloadAnchor = none ∧
    c1World.filePreviewSrc = some "PreviewHandler.ashx?f=1" ∧
    jsMatchCapture "WOPISrc=" "&ui="
        "https://office.example/wv/frame.aspx?WOPISrc=https\\x253a\\x252f\\x252fresource.itslearning.com\\x252fwopi\\x252ffiles\\x252f123&ui=en-US" =
      some "https\\x253a\\x252f\\x252fresource.itslearning.com\\x252fwopi\\x252ffiles\\x252f123" ∧
    downloadResourceObject "sch" "sid" "42" "base" c1World [] =
      ([Effect.fetch (viewUrl "sch" "42") (portalCookie "sid"),
        Effect.fetch "https://platform.itslearning.com/p?a=1&b=2" "",
        Effect.fetch "https://platform.itslearning.com/loi" "p=1",
        Effect.fetch "https://resource.itslearning.com/PreviewHandler.ashx?f=1"
          "ASP.NET_SessionId=r1",
        Effect.fetch "https://resource.itslearning.com/wopi/files/123/contents?access_token=TOK123"
          "",
        Effect.write "base/Essay.docx" "DOCBYTES",
        Effect.log "Downloaded file to base/Essay.docx"],
       [("base/Essay.docx", "DOCBYTES")]) :=
  ⟨rfl, rfl, by decide,
    c1_office_preview_download "sch" "sid" "42" "base" "PreviewHandler.ashx?f=1"
      "https://office.example/wv/frame.aspx?WOPISrc=https\\x253a\\x252f\\x252fresource.itslearning.com\\x252fwopi\\x252ffiles\\x252f123&ui=en-US"
      "TOK123" "99999"
      "https\\x253a\\x252f\\x252fresource.itslearning.com\\x252fwopi\\x252ffiles\\x252f123"
      c1World [] rfl rfl rfl rfl (by decide) (by decide) (by decide) (by decide)⟩

/-! ## Concrete worlds shared by the traversal claims -/

/-- A folder world with no entries (used as the unused folder sub-world
of file-type entries). -/
def emptyFolderWorld : FolderWorld := .mk true "Empty" []

/-- A generic successful direct-download file world, specialised by the
traversal claims below. -/
def dummyFileWorld : FileWorld :=
  { viewOk := true, viewStatusText := "OK", fileNameTitle := "Dummy"
    iframeSrc := "https://platform.itslearning.com/p?x=1", iframeOk := true
    locationHeader := "https://platform.itslearning.com/loi"
    iframeSetCookie := ["p=1; path=/"]
    resourceOk := true
    resourceSetCookie := ["ASP.NET_SessionId=r1; path=/"]
    downloadAnchor := some ("/dl/d.pdf", "d.pdf")
    filePreviewSrc := none, previewOk := true, previewStatusText := "OK"
    previewContent := "", download := { ok := true, statusText := "OK", body := "D" } }

/-! ## C4 — duplicate-name disambiguation -/

/-- A file world titled `Notes` resolving to `notes.pdf` (C4 only). -/
def c4File (body : String) : FileWorld :=
  { dummyFileWorld with
    fileNameTitle := "Notes",
    downloadAnchor := some ("/dl/notes.pdf", "notes.pdf"),
    download := { ok := true, statusText := "OK", body := body } }

/-- A file-type folder entry displaying `Notes` (C4 only). -/
def c4Entry11 : String × String × FolderWorld × FileWorld :=
  ("/LearningToolElement/ViewLearningToolElement.aspx?LearningToolElementId=11",
   "Notes", emptyFolderWorld, c4File "B1")

/-- A folder whose two file-type entries both display `Notes` (C4
only). -/
def c4DupFolder : FolderWorld :=
  .mk true "Root"
    [c4Entry11,
     ("/LearningToolElement/ViewLearningToolElement.aspx?LearningToolElementId=12",
      "Notes", emptyFolderWorld, c4File "B2")]

/-- **C4 counterexample** — File-type entries are *not* resolved with
any disambiguation flag.  First conjunct: in a folder whose two
file-type entries both display `Notes`, both are resolved onto the
identical un-disambiguated target path `P/Root/notes.pdf` — the second
resolution is skipped as already existing, so one of the two duplicated
files is silently never downloaded.  Second conjunct: the resolution of
a file-type entry is byte-for-byte identical whether its display text is
duplicated (`["Notes", "Notes"]`) or unique (`["Notes", "Other"]`) among
the folder's entries — the computed duplicate count has no effect on
file resolution, refuting "every entry (folder-type or file-type) …
is … resolved with the disambiguation flag set". -/
theorem c4_counterexample :
    (downloadResourceFolder "sch" "/Folder/FolderFile.aspx?FolderID=7" "sid" "P" false
        c4DupFolder []).1 =
      [Effect.fetch "https://sch.itslearning.com/Folder/FolderFile.aspx?FolderID=7"
        "ASP.NET_SessionId=sid;",
       Effect.fetch
         "https://sch.itslearning.com/LearningToolElement/ViewLearningToolElement.aspx?LearningToolElementId=11"
         "ASP.NET_SessionId=sid;",
       Effect.fetch "https://platform.itslearning.com/p?x=1" "",
       Effect.fetch "https://platform.itslearning.com/loi" "p=1",
       Effect.fetch "https://resource.itslearning.com/dl/notes.pdf" "ASP.NET_SessionId=r1",
       Effect.write "P/Root/notes.pdf" "B1",
       Effect.log "Downloaded file to P/Root/notes.pdf",
       Effect.fetch
         "https://sch.itslearning.com/LearningToolElement/ViewLearningToolElement.aspx?LearningToolElementId=12"
         "ASP.NET_SessionId=sid;",
       Effect.fetch "https://platform.itslearning.com/p?x=1" "",
       Effect.fetch "https://platform.itslearning.com/loi" "p=1",
       Effect.log "Skipping file: P/Root/notes.pdf"] ∧
    processEntries "sch" "sid" "P/Root" ["Notes", "Notes"] [c4Entry11] [] =
      processEntries "sch" "sid" "P/Root" ["Notes", "Other"] [c4Entry11] [] := by
  exact ⟨by decide, by decide⟩

/-- **C4 (amended)** — For every folder page, every *folder-type* entry
is traversed with the disambiguation flag
`shouldAppendId names text` — set exactly when the entry's display text
occurs more than once among the folder's entries (e.g. for
`["Notes", "Notes", "Syllabus"]` both `Notes` entries get the flag and
`Syllabus` does not) — while every *file-type* entry is resolved by
`downloadResourceObject`, which takes no disambiguation flag: its
resolution (second conjunct) does not depend on the entry-name list at
all. -/
theorem c4_duplicate_name_flag :
    (∀ (school sessionId folderPath url text : String) (names : List String)
        (sub : FolderWorld) (fw : FileWorld)
        (rest : List (String × String × FolderWorld × FileWorld)) (fs : FS),
      jsStartsWith url "/Folder" = true →
      processEntries school sessionId folderPath names ((url, text, sub, fw) :: rest) fs =
        ((downloadResourceFolder school url sessionId folderPath
            (shouldAppendId names text) sub fs).1 ++
          (processEntries school sessionId folderPath names rest
            (downloadResourceFolder school url sessionId folderPath
              (shouldAppendId names text) sub fs).2).1,
         (processEntries school sessionId folderPath names rest
            (downloadResourceFolder school url sessionId folderPath
              (shouldAppendId names text) sub fs).2).2)) ∧
    (∀ (school sessionId folderPath url text elementId : String) (names : List String)
        (sub : FolderWorld) (fw : FileWorld)
        (rest : List (String × String × FolderWorld × FileWorld)) (fs : FS),
      jsStartsWith url "/Folder" = false →
      jsStartsWith url "/LearningToolElement" = true →
      jsMatchDigits "LearningToolElementId=" url = some elementId →
      processEntries school sessionId folderPath names ((url, text, sub, fw) :: rest) fs =
        ((downloadResourceObject school sessionId elementId folderPath fw fs).1 ++
          (processEntries school sessionId folderPath names rest
            (downloadResourceObject school sessionId elementId folderPath fw fs).2).1,
         (processEntries school sessionId folderPath names rest
            (downloadResourceObject school sessionId elementId folderPath fw fs).2).2)) ∧
    shouldAppendId ["Notes", "Notes", "Syllabus"] "Notes" = true ∧
    shouldAppendId ["Notes", "Notes", "Syllabus"] "Syllabus" = false := by
  refine ⟨?_, ?_, by decide, by decide⟩
  · intro school sessionId folderPath url text names sub fw rest fs hfolder
    rw [processEntries]
    rw [hfolder]
    simp
  · intro school sessionId folderPath url text elementId names sub fw rest fs hnf hfile hid
    rw [processEntries]
    rw [hnf, hfile, hid]
    simp

/-- A subfolder containing one direct-download file (C4 witness
only). -/
def c4Sub (title fn body : String) : FolderWorld :=
  .mk true title
    [("/LearningToolElement/ViewLearningToolElement.aspx?LearningToolElementId=31",
      fn, emptyFolderWorld,
      { dummyFileWorld with
        fileNameTitle := fn,
        downloadAnchor := some ("/dl/" ++ fn, fn),
        download := { ok := true, statusText := "OK", body := body } })]

/-- Witness for the amended C4: a duplicated folder-type `Notes` entry
is traversed with the flag set (its directory gets the ` [481]` suffix
from its `FolderID`), and a file-type `Notes` entry duplicated among the
entry names resolves with no flag. -/
theorem c4_duplicate_name_flag_witness :
    processEntries "sch" "sid" "P" ["Notes", "Notes", "Syllabus"]
      [("/Folder/FolderFile.aspx?FolderID=481", "Notes", c4Sub "Notes" "n1.pdf" "N1",
        dummyFileWorld)] [] =
      ([Effect.fetch "https://sch.itslearning.com/Folder/FolderFile.aspx?FolderID=481"
          "ASP.NET_SessionId=sid;",
        Effect.fetch
          "https://sch.itslearning.com/LearningToolElement/ViewLearningToolElement.aspx?LearningToolElementId=31"
          "ASP.NET_SessionId=sid;",
        Effect.fetch "https://platform.itslearning.com/p?x=1" "",
        Effect.fetch "https://platform.itslearning.com/loi" "p=1",
        Effect.fetch "https://resource.itslearning.com/dl/n1.pdf" "ASP.NET_SessionId=r1",
        Effect.write "P/Notes [481]/n1.pdf" "N1",
        Effect.log "Downloaded file to P/Notes [481]/n1.pdf"],
       [("P/Notes [481]/n1.pdf", "N1")]) ∧
    processEntries "sch" "sid" "P/Root" ["Notes", "Notes"] [c4Entry11] [] =
      ([Effect.fetch
          "https://sch.itslearning.com/LearningToolElement/ViewLearningToolElement.aspx?LearningToolElementId=11"
          "ASP.NET_SessionId=sid;",
        Effect.fetch "https://platform.itslearning.com/p?x=1" "",
        Effect.fetch "https://platform.itslearning.com/loi" "p=1",
        Effect.fetch "https://resource.itslearning.com/dl/notes.pdf" "ASP.NET_SessionId=r1",
        Effect.write "P/Root/notes.pdf" "B1",
        Effect.log "Downloaded file to P/Root/notes.pdf"],
       [("P/Root/notes.pdf", "B1")]) :=
  ⟨c4_duplicate_name_flag.1 "sch" "sid" "P" "/Folder/FolderFile.aspx?FolderID=481" "Notes"
      ["Notes", "Notes", "Syllabus"] (c4Sub "Notes" "n1.pdf" "N1") dummyFileWorld [] []
      (by decide),
   c4_duplicate_name_flag.2.1 "sch" "sid" "P/Root"
      "/LearningToolElement/ViewLearningToolElement.aspx?LearningToolElementId=11" "Notes"
      "11" ["Notes", "Notes"] emptyFolderWorld (c4File "B1") [] []
      (by decide) (by decide) (by decide)⟩

/-! ## C3 — failure containment -/

/-- A successful file world titled `Notes` (C3 only). -/
def c3FileWorld : FileWorld :=
  { dummyFileWorld with
    fileNameTitle := "Notes",
    downloadAnchor := some ("/dl/notes.pdf", "notes.pdf"),
    download := { ok := true, statusText := "OK", body := "B1" } }

/-- A course whose content page loads and whose root folder holds one
file (C3 only). -/
def c3GoodCourse : CourseWorld :=
  { title := "Good Course", courseId := "2", contentOk := true
    resourceFolderUrl := "/Folder/FolderFile.aspx?FolderID=3"
    root := .mk true "Root"
      [("/LearningToolElement/ViewLearningToolElement.aspx?LearningToolElementId=21",
        "Notes", emptyFolderWorld, c3FileWorld)] }

/-- A course whose ContentArea fetch returns a non-success status (C3
only). -/
def c3BadCourse : CourseWorld :=
  { title := "Bad Course", courseId := "1", contentOk := false
    resourceFolderUrl := "/Folder/FolderFile.aspx?FolderID=9"
    root := .mk true "R" [] }

/-- The file world of `c3FileWorld` with non-success statuses on the
cross-domain and platform hops (C3 only). -/
def c3HopWorld : FileWorld :=
  { c3FileWorld with iframeOk := false, resourceOk := false }

/-- **C3 counterexample** — Two ways the claim fails on the code.
Conjuncts 1-2: a non-success status while fetching the first course's
content page makes the course loop `return`: the run stops after the
error log and the second course — which on its own (conjunct 2)
downloads its file — is never visited, so "the remaining courses in the
course list still proceeds and completes" is false.  Conjunct 3: a
non-success status at the cross-domain and platform hops
(`c3HopWorld` has both hop statuses false) neither aborts the file nor
logs anything — the resolution proceeds to materialize the file — so
"only that … file is aborted (with a log)" is false for those hops. -/
theorem c3_counterexample :
    downloadResourcesOfCourses "sch" "sid" [c3BadCourse, c3GoodCourse] [] =
      ([Effect.fetch
          "https://sch.itslearning.com/ContentArea/ContentArea.aspx?LocationID=1&LocationType=1"
          "ASP.NET_SessionId=sid;",
        Effect.log "Failed to fetch web content for course Bad Course"], []) ∧
    (downloadResourcesOfCourses "sch" "sid" [c3GoodCourse] []).2 =
      [("./data/Good Course/Root/notes.pdf", "B1")] ∧
    downloadResourceObject "sch" "sid" "21" "P" c3HopWorld [] =
      ([Effect.fetch (viewUrl "sch" "21") (portalCookie "sid"),
        Effect.fetch "https://platform.itslearning.com/p?x=1" "",
        Effect.fetch "https://platform.itslearning.com/loi" "p=1",
        Effect.fetch "https://resource.itslearning.com/dl/notes.pdf" "ASP.NET_SessionId=r1",
        Effect.write "P/notes.pdf" "B1",
        Effect.log "Downloaded file to P/notes.pdf"],
       [("P/notes.pdf", "B1")]) := by
  exact ⟨by decide, by decide, by decide⟩

/-- **C3 (amended)** — Failure containment as the code implements it.
(1) A folder-type entry whose folder-page fetch has a non-success status
contributes only its fetch and an error log; the remaining sibling
entries are processed on the unchanged file system.  (2) A non-success
status at a file's view hop aborts only that file, with an error log.
(3) A non-success status at the preview-page fetch aborts only that
file, with an error log and no materialization.  (4) A non-success
status at the payload GET aborts only that file, with an error log and
an unchanged file system.  (5) A course whose content-page fetch
succeeds is fully processed and the remaining courses are then
processed, whatever failures occur inside its folder tree.  (6) A
course whose content-page fetch has a non-success status logs an error
and ends the whole course loop — the remaining courses are dropped.
(7) The statuses of the cross-domain and platform hops are never
consulted: the resolution is unchanged under any values of those two
statuses. -/
theorem c3_failure_containment :
    (∀ (school sessionId folderPath url text : String) (names : List String)
        (sub : FolderWorld) (fw : FileWorld)
        (rest : List (String × String × FolderWorld × FileWorld)) (fs : FS),
      jsStartsWith url "/Folder" = true → sub.ok = false →
      processEntries school sessionId folderPath names ((url, text, sub, fw) :: rest) fs =
        ([Effect.fetch (folderAbsUrl school url) (portalCookie sessionId),
          Effect.log ("Failed to fetch web content for folder at " ++
            folderAbsUrl school url)] ++
          (processEntries school sessionId folderPath names rest fs).1,
         (processEntries school sessionId folderPath names rest fs).2)) ∧
    (∀ (school sessionId elementId folderPath : String) (w : FileWorld) (fs : FS),
      w.viewOk = false →
      downloadResourceObject school sessionId elementId folderPath w fs =
        ([Effect.fetch (viewUrl school elementId) (portalCookie sessionId),
          Effect.log ("Failed to fetch web page for resource object: " ++ w.viewStatusText ++
            " URL: " ++ viewUrl school elementId)], fs)) ∧
    (∀ (school sessionId elementId folderPath previewSrc : String) (w : FileWorld) (fs : FS),
      w.viewOk = true → w.downloadAnchor = none → w.filePreviewSrc = some previewSrc →
      w.previewOk = false →
      downloadResourceObject school sessionId elementId folderPath w fs =
        ([Effect.fetch (viewUrl school elementId) (portalCookie sessionId),
          Effect.fetch (jsReplaceAll w.iframeSrc "&amp;" "&") "",
          Effect.fetch w.locationHeader (convertSetCookieToCookieString w.iframeSetCookie),
          Effect.fetch ("https://resource.itslearning.com/" ++ previewSrc)
            (resourceCookieStringOf w),
          Effect.log ("Failed to download file preview web page (office online): " ++
            w.previewStatusText)], fs)) ∧
    (∀ (resp : DownloadResp) (downloadUrl cookieString folderPath filename : String) (fs : FS),
      (fs.lookup (pathJoin folderPath filename)).isSome = false → resp.ok = false →
      downloadFile resp downloadUrl cookieString folderPath filename fs =
        ([Effect.fetch downloadUrl cookieString,
          Effect.log ("Failed to download file: " ++ resp.statusText)], fs)) ∧
    (∀ (school sessionId : String) (course : CourseWorld) (rest : List CourseWorld) (fs : FS),
      course.contentOk = true →
      downloadResourcesOfCourses school sessionId (course :: rest) fs =
        (Effect.fetch (contentAreaUrl school course.courseId) (portalCookie sessionId) ::
          ((downloadResourceFolder school course.resourceFolderUrl sessionId
              (pathJoin downloadLocation (decodeString course.title)) false course.root fs).1 ++
            (downloadResourcesOfCourses school sessionId rest
              (downloadResourceFolder school course.resourceFolderUrl sessionId
                (pathJoin downloadLocation (decodeString course.title)) false
                course.root fs).2).1),
         (downloadResourcesOfCourses school sessionId rest
            (downloadResourceFolder school course.resourceFolderUrl sessionId
              (pathJoin downloadLocation (decodeString course.title)) false
              course.root fs).2).2)) ∧
    (∀ (school sessionId : String) (course : CourseWorld) (rest : List CourseWorld) (fs : FS),
      course.contentOk = false →
      downloadResourcesOfCourses school sessionId (course :: rest) fs =
        ([Effect.fetch (contentAreaUrl school course.courseId) (portalCookie sessionId),
          Effect.log ("Failed to fetch web content for course " ++ course.title)], fs)) ∧
    (∀ (school sessionId elementId folderPath : String) (w : FileWorld) (fs : FS)
        (b1 b2 : Bool),
      downloadResourceObject school sessionId elementId folderPath
        { w with iframeOk := b1, resourceOk := b2 } fs =
      downloadResourceObject school sessionId elementId folderPath w fs) := by
  refine ⟨?_, ?_, ?_, ?_, ?_, ?_, ?_⟩
  · intro school sessionId folderPath url text names sub fw rest fs hfolder hfail
    cases sub with
    | mk ok title entries =>
      simp only [FolderWorld.ok] at hfail
      rw [processEntries, hfolder, downloadResourceFolder, hfail]
      simp
  · intro school sessionId elementId folderPath w fs hov
    unfold downloadResourceObject
    rw [hov]
    rfl
  · intro school sessionId elementId folderPath previewSrc w fs hok ha hp hpbad
    unfold downloadResourceObject
    rw [hok, ha, hp, hpbad]
    rfl
  · intro resp downloadUrl cookieString folderPath filename fs hne hbad
    unfold downloadFile
    simp [hne, hbad]
  · intro school sessionId course rest fs hok
    rw [downloadResourcesOfCourses, hok]
    simp
  · intro school sessionId course rest fs hbad
    rw [downloadResourcesOfCourses, hbad]
    rfl
  · intro school sessionId elementId folderPath w fs b1 b2
    cases w
    rfl

/-- A file world whose view-page fetch has a non-success status (C3
witness only). -/
def c3ViewFailWorld : FileWorld :=
  { dummyFileWorld with viewOk := false, viewStatusText := "Not Found" }

/-- A file world whose preview-page fetch has a non-success status (C3
witness only). -/
def c3PreviewFailWorld : FileWorld :=
  { dummyFileWorld with
    downloadAnchor := none,
    filePreviewSrc := some "ph.ashx?f=9",
    previewOk := false,
    previewStatusText := "Server Error" }

/-- Witness for the amended C3, instantiating each conjunct: a failing
subfolder entry leaves only a log while the traversal goes on; a failing
view hop, a failing preview fetch and a failing payload GET each abort
only that file with a log; a loading course is processed and the loop
continues; a failing course content fetch drops the rest of the loop;
the hop statuses are ignored. -/
theorem c3_failure_containment_witness :
    processEntries "sch" "sid" "P" ["X"]
      [("/Folder/FolderFile.aspx?FolderID=9", "X", FolderWorld.mk false "T" [],
        dummyFileWorld)] [] =
      ([Effect.fetch "https://sch.itslearning.com/Folder/FolderFile.aspx?FolderID=9"
          "ASP.NET_SessionId=sid;",
        Effect.log
          "Failed to fetch web content for folder at https://sch.itslearning.com/Folder/FolderFile.aspx?FolderID=9"],
       []) ∧
    downloadResourceObject "sch" "sid" "5" "P" c3ViewFailWorld [] =
      ([Effect.fetch (viewUrl "sch" "5") (portalCookie "sid"),
        Effect.log ("Failed to fetch web page for resource object: Not Found URL: " ++
          viewUrl "sch" "5")], []) ∧
    downloadResourceObject "sch" "sid" "5" "P" c3PreviewFailWorld [] =
      ([Effect.fetch (viewUrl "sch" "5") (portalCookie "sid"),
        Effect.fetch "https://platform.itslearning.com/p?x=1" "",
        Effect.fetch "https://platform.itslearning.com/loi" "p=1",
        Effect.fetch "https://resource.itslearning.com/ph.ashx?f=9" "ASP.NET_SessionId=r1",
        Effect.log "Failed to download file preview web page (office online): Server Error"],
       []) ∧
    downloadFile { ok := false, statusText := "Forbidden", body := "" }
        "https://resource.itslearning.com/dl/x.pdf" "ck" "P" "f.pdf" [] =
      ([Effect.fetch "https://resource.itslearning.com/dl/x.pdf" "ck",
        Effect.log "Failed to download file: Forbidden"], []) ∧
    downloadResourcesOfCourses "sch" "sid" [c3GoodCourse] [] =
      ([Effect.fetch (contentAreaUrl "sch" "2") (portalCookie "sid"),
        Effect.fetch "https://sch.itslearning.com/Folder/FolderFile.aspx?FolderID=3"
          "ASP.NET_SessionId=sid;",
        Effect.fetch (viewUrl "sch" "21") (portalCookie "sid"),
        Effect.fetch "https://platform.itslearning.com/p?x=1" "",
        Effect.fetch "https://platform.itslearning.com/loi" "p=1",
        Effect.fetch "https://resource.itslearning.com/dl/notes.pdf" "ASP.NET_SessionId=r1",
        Effect.write "./data/Good Course/Root/notes.pdf" "B1",
        Effect.log "Downloaded file to ./data/Good Course/Root/notes.pdf"],
       [("./data/Good Course/Root/notes.pdf", "B1")]) ∧
    downloadResourcesOfCourses "sch" "sid" [c3BadCourse] [] =
      ([Effect.fetch (contentAreaUrl "sch" "1") (portalCookie "sid"),
        Effect.log "Failed to fetch web content for course Bad Course"], []) ∧
    downloadResourceObject "sch" "sid" "5" "P"
        { dummyFileWorld with iframeOk := false, resourceOk := false } [] =
      downloadResourceObject "sch" "sid" "5" "P" dummyFileWorld [] :=
  ⟨c3_failure_containment.1 "sch" "sid" "P" "/Folder/FolderFile.aspx?FolderID=9" "X" ["X"]
      (FolderWorld.mk false "T" []) dummyFileWorld [] [] (by decide) (by decide),
   c3_failure_containment.2.1 "sch" "sid" "5" "P" c3ViewFailWorld [] (by decide),
   c3_failure_containment.2.2.1 "sch" "sid" "5" "P" "ph.ashx?f=9" c3PreviewFailWorld []
      (by decide) (by decide) (by decide) (by decide),
   c3_failure_containment.2.2.2.1 { ok := false, statusText := "Forbidden", body := "" }
      "https://resource.itslearning.com/dl/x.pdf" "ck" "P" "f.pdf" [] (by decide) (by decide),
   c3_failure_containment.2.2.2.2.1 "sch" "sid" c3GoodCourse [] [] (by decide),
   c3_failure_containment.2.2.2.2.2.1 "sch" "sid" c3BadCourse [] [] (by decide),
   c3_failure_containment.2.2.2.2.2.2 "sch" "sid" "5" "P" dummyFileWorld [] false false⟩

/-! ## C10 — target file names bypass the sanitizer -/

/-- Raw preview-page text (C10 only). -/
def c10Preview : String :=
  "form.action = 'https://office.example/f.aspx?WOPISrc=https\\x253a\\x252f\\x252fresource.itslearning.com\\x252fwopi\\x252ffiles\\x252f77&ui=en-US'; accessTokenInput.value = 'T77'; accessTokenTtlInput.value = '1';"

/-- A preview-branch file world whose view-page title holds an
undecoded entity and a forbidden character (C10 only). -/
def c10PreviewWorld : FileWorld :=
  { dummyFileWorld with
    fileNameTitle := "N&amp;M:K.docx",
    downloadAnchor := none,
    filePreviewSrc := some "ph.ashx?f=77",
    previewContent := c10Preview,
    download := { ok := true, statusText := "OK", body := "W" } }

/-- A folder whose own title also holds an entity and a forbidden
character, containing the preview-branch file (C10 only). -/
def c10Folder : FolderWorld :=
  .mk true "A&amp;B:C"
    [("/LearningToolElement/ViewLearningToolElement.aspx?LearningToolElementId=21",
      "N", emptyFolderWorld, c10PreviewWorld)]

/-- A direct-download file world whose `Download` attribute holds a
forbidden character and an undecoded entity (C10 only). -/
def c10DirectWorld : FileWorld :=
  { dummyFileWorld with
    downloadAnchor := some ("/dl/r.pdf", "R:1&amp;.pdf"),
    download := { ok := true, statusText := "OK", body := "DD" } }

/-- **C10** — The target file name handed to the Materializer is never
passed through the name sanitizer, unlike folder and course directory
names.  First conjunct (preview branch): the file is written under the
*sanitized* folder segment `A&B_C` (= `decodeString "A&amp;B:C"`) but
with the *raw* view-page title `N&amp;M:K.docx` as its name — entity
undecoded, forbidden `:` kept.  Second conjunct (direct branch): the
raw `Download` attribute `R:1&amp;.pdf` is the written name.  The
remaining conjuncts evaluate the sanitizer on those strings, showing
each written file name differs from its sanitized form while the
directory segment equals its sanitized form. -/
theorem c10_raw_filenames :
    (downloadResourceFolder "sch" "/Folder/FolderFile.aspx?FolderID=5" "sid" "./data/C" false
        c10Folder []).2 =
      [("./data/C/A&B_C/N&amp;M:K.docx", "W")] ∧
    (downloadResourceObject "sch" "sid" "9" "P" c10DirectWorld []).2 =
      [("P/R:1&amp;.pdf", "DD")] ∧
    decodeString "A&amp;B:C" = "A&B_C" ∧
    decodeString "N&amp;M:K.docx" = "N&M_K.docx" ∧
    "N&amp;M:K.docx" ≠ decodeString "N&amp;M:K.docx" ∧
    "R:1&amp;.pdf" ≠ decodeString "R:1&amp;.pdf" := by
  exact ⟨by decide, by decide, by decide, by decide, by decide, by decide⟩

end ItsDumper
